import Mathlib

/-!
Shallow embedding of the langfuse-gosdk batching, flushing, retry and
metrics core (src/langfuse/batcher.go, config.go, trace.go and the error
classifier file), together with theorems settling the specification
claims.  Go machine integers that only ever count upward are modelled as
`Nat`; time-valued fields (timestamps, durations) are carried as opaque
`Nat` data where they matter and omitted where no claim observes them.
Concurrency is modelled by explicit interleaving parameters: the list of
events appended by producers while a network send is in flight is passed
to `Batcher.Flush` as the `addedDuring` argument, and the transport
outcome of a send is passed in as a `SendResult` value.
-/

namespace Langfuse

/-- Event mirrors the Go `Event` struct (id, type, timestamp, body);
the body map is opaque to the batching core, so it is carried as an
uninterpreted `String` payload. -/
structure Event where
  id : String
  type : String
  timestamp : Nat
  body : String
  deriving DecidableEq, Repr

/-- LangfuseError mirrors the Go struct: code, message, HTTP status code
(0 when not an HTTP error) and the private retryable flag. -/
structure LangfuseError where
  Code : String
  Message : String
  StatusCode : Nat
  retryable : Bool
  deriving DecidableEq, Repr

/-- IsRetryable returns the retryable flag, as in the Go method. -/
def LangfuseError.IsRetryable (e : LangfuseError) : Bool :=
  e.retryable

/-- NewHTTPError mirrors the Go constructor: 429 and 5xx are retryable;
the code is SERVER_ERROR for 5xx, RATE_LIMITED for 429, CLIENT_ERROR for
other 4xx, and HTTP_<status> otherwise. -/
def NewHTTPError (statusCode : Nat) (body : String) : LangfuseError :=
  let retryable := statusCode == 429 || (decide (500 ≤ statusCode) && decide (statusCode < 600))
  let code :=
    if 500 ≤ statusCode ∧ statusCode < 600 then "SERVER_ERROR"
    else if statusCode = 429 then "RATE_LIMITED"
    else if 400 ≤ statusCode ∧ statusCode < 500 then "CLIENT_ERROR"
    else "HTTP_" ++ toString statusCode
  { Code := code, Message := body, StatusCode := statusCode, retryable := retryable }

/-- NewNetworkError mirrors the Go constructor: always retryable, code
NETWORK_ERROR, no HTTP status. -/
def NewNetworkError (msg : String) : LangfuseError :=
  { Code := "NETWORK_ERROR", Message := msg, StatusCode := 0, retryable := true }

/-- NewConfigError mirrors the Go constructor: never retryable. -/
def NewConfigError (message : String) : LangfuseError :=
  { Code := "CONFIG_ERROR", Message := message, StatusCode := 0, retryable := false }

/-- C5: the error classifier is a pure function of the transport
outcome: a network-level failure yields a retryable NETWORK_ERROR;
HTTP 429 yields retryable RATE_LIMITED; 500-599 yields retryable
SERVER_ERROR; 400-499 other than 429 yields non-retryable CLIENT_ERROR;
any other status yields a generic non-retryable HTTP_<status> error
carrying the status code; and an HTTP error is retryable exactly when
the status is 429 or in 500-599. -/
theorem errorClassifier_pure_classification (s : Nat) (b msg : String) :
    (NewNetworkError msg).IsRetryable = true ∧
    (NewNetworkError msg).Code = "NETWORK_ERROR" ∧
    (NewHTTPError s b).StatusCode = s ∧
    ((NewHTTPError s b).IsRetryable = true ↔ (s = 429 ∨ (500 ≤ s ∧ s < 600))) ∧
    (NewHTTPError s b).Code =
      (if 500 ≤ s ∧ s < 600 then "SERVER_ERROR"
       else if s = 429 then "RATE_LIMITED"
       else if 400 ≤ s ∧ s < 500 then "CLIENT_ERROR"
       else "HTTP_" ++ toString s) := by
  refine ⟨rfl, rfl, rfl, ?_, rfl⟩
  simp [NewHTTPError, LangfuseError.IsRetryable]

/-- Config mirrors src/langfuse/config.go.  Durations are opaque `Nat`
values; the count fields FlushAt, MaxQueueSize and MaxRetryAttempts are
`Nat` (Config.Validate rejects non-positive thresholds, so the Go `int`
values of interest are non-negative). -/
structure Config where
  PublicKey : String
  SecretKey : String
  BaseURL : String
  FlushInterval : Nat
  FlushAt : Nat
  MaxQueueSize : Nat
  Timeout : Nat
  Enabled : Bool
  Debug : Bool
  MaxRetryAttempts : Nat
  RetryBaseDelay : Nat
  RetryMaxDelay : Nat
  MetricsEnabled : Bool
  deriving DecidableEq, Repr

/-- ConfigError mirrors the Go struct in config.go. -/
structure ConfigError where
  Field : String
  Message : String
  deriving DecidableEq, Repr

/-- Validate mirrors Config.Validate: required keys, positive FlushAt
and MaxQueueSize (the Go `<= 0` test becomes `= 0` on `Nat`). -/
def Config.Validate (c : Config) : Option ConfigError :=
  if c.PublicKey = "" then some { Field := "PublicKey", Message := "public key is required" }
  else if c.SecretKey = "" then some { Field := "SecretKey", Message := "secret key is required" }
  else if c.BaseURL = "" then some { Field := "BaseURL", Message := "base URL is required" }
  else if c.FlushAt = 0 then some { Field := "FlushAt", Message := "flush at must be positive" }
  else if c.MaxQueueSize = 0 then some { Field := "MaxQueueSize", Message := "max queue size must be positive" }
  else none

/-- FlushError: the error value returned by sendIngestion, as seen by
handleFlushError.  It is either a typed LangfuseError (network failure
or HTTP error) or some other wrapped error (marshal or unmarshal
failure), which the Go type assertion in handleFlushError treats as
non-retryable. -/
inductive FlushError where
  | langfuse (e : LangfuseError)
  | other (msg : String)
  deriving DecidableEq, Repr

/-- The Go test `if langfuseErr, ok := err.(*LangfuseError); ok &&
langfuseErr.IsRetryable()`. -/
def FlushError.isRetryableLangfuse : FlushError → Bool
  | .langfuse e => e.IsRetryable
  | .other _ => false

/-- SuccessResult mirrors the Go wire DTO. -/
structure SuccessResult where
  id : String
  status : Nat
  message : String
  deriving DecidableEq, Repr

/-- ErrorResult mirrors the Go wire DTO. -/
structure ErrorResult where
  id : String
  status : Nat
  error : String
  message : String
  deriving DecidableEq, Repr

/-- IngestionResponse mirrors the Go wire DTO. -/
structure IngestionResponse where
  Successes : List SuccessResult
  Errors : List ErrorResult
  deriving DecidableEq, Repr

/-- SendResult: the outcome of one sendIngestion call, passed into the
model of Flush in place of the network round trip. -/
inductive SendResult where
  | ok (resp : IngestionResponse)
  | err (e : FlushError)
  deriving DecidableEq, Repr

/-- FailedEvent mirrors the Go struct in the metrics file (the wall
clock timestamp is omitted; no claim observes it). -/
structure FailedEvent where
  event : Event
  error : FlushError
  attempt : Nat
  deriving DecidableEq, Repr

/-- Metrics mirrors the Go Metrics struct: the five event counters, the
two operation counters and the bounded failed-events buffer
(lastFlushTimeUnix is omitted; no claim observes it). -/
structure Metrics where
  eventsEnqueued : Nat
  eventsFlushed : Nat
  eventsSucceeded : Nat
  eventsFailed : Nat
  eventsDropped : Nat
  flushCount : Nat
  retryCount : Nat
  failedEvents : List FailedEvent
  deriving DecidableEq, Repr

/-- The zero value of the Go Metrics struct, as allocated by NewClient. -/
def Metrics.init : Metrics :=
  { eventsEnqueued := 0, eventsFlushed := 0, eventsSucceeded := 0,
    eventsFailed := 0, eventsDropped := 0, flushCount := 0, retryCount := 0,
    failedEvents := [] }

/-- RecordEnqueued mirrors the Go method. -/
def Metrics.RecordEnqueued (m : Metrics) (count : Nat) : Metrics :=
  { m with eventsEnqueued := m.eventsEnqueued + count }

/-- RecordFlush mirrors the Go method (the lastFlushTimeUnix stamp is
omitted). -/
def Metrics.RecordFlush (m : Metrics) (success failed : Nat) : Metrics :=
  { m with
    eventsFlushed := m.eventsFlushed + (success + failed),
    eventsSucceeded := m.eventsSucceeded + success,
    eventsFailed := m.eventsFailed + failed,
    flushCount := m.flushCount + 1 }

/-- RecordDropped mirrors the Go method. -/
def Metrics.RecordDropped (m : Metrics) (count : Nat) : Metrics :=
  { m with eventsDropped := m.eventsDropped + count }

/-- RecordRetry mirrors the Go method. -/
def Metrics.RecordRetry (m : Metrics) : Metrics :=
  { m with retryCount := m.retryCount + 1 }

/-- RecordFailedEvent mirrors the Go method: append, then keep only the
last 1000 entries when the buffer has grown past 1000. -/
def Metrics.RecordFailedEvent (m : Metrics) (event : Event) (err : FlushError) (attempt : Nat) : Metrics :=
  let fes := m.failedEvents ++ [{ event := event, error := err, attempt := attempt }]
  { m with failedEvents := if fes.length > 1000 then fes.drop (fes.length - 1000) else fes }

/-- BatcherState: the queue owned by the Batcher together with the
client's Metrics that the Batcher updates, and the `done` flag standing
for the closed stop channel of the background task.  (The Go struct also
declares an `attempts` map, but no code ever reads or writes it, so it
carries no state.) -/
structure BatcherState where
  queue : List Event
  done : Bool
  metrics : Metrics
  deriving DecidableEq, Repr

/-- NewBatcher: empty queue, background task not yet stopped.  Metrics
start from the client's zero-valued Metrics struct. -/
def NewBatcher (_cfg : Config) : BatcherState :=
  { queue := [], done := false, metrics := Metrics.init }

/-- QueueFullError mirrors the Go struct in batcher.go. -/
structure QueueFullError where
  MaxSize : Nat
  deriving DecidableEq, Repr

/-- handleFlushError mirrors Batcher.handleFlushError: a retryable
LangfuseError records a retry (when metrics are enabled) and reinserts
the snapshot at the front of the current queue; any other error leaves
the queue alone and records each snapshot event as a FailedEvent with
attempt 0 (when metrics are enabled). -/
def Batcher.handleFlushError (cfg : Config) (s : BatcherState) (events : List Event) (err : FlushError) : BatcherState :=
  if err.isRetryableLangfuse then
    { s with
      queue := events ++ s.queue,
      metrics := if cfg.MetricsEnabled then s.metrics.RecordRetry else s.metrics }
  else
    { s with
      metrics :=
        if cfg.MetricsEnabled then
          events.foldl (fun m e => m.RecordFailedEvent e err 0) s.metrics
        else s.metrics }

/-- Flush mirrors Batcher.Flush.  The queue is drained to a snapshot
under the lock; `addedDuring` is the list of events producers append
while the send is in flight (so the queue the error handler sees is
exactly `addedDuring`); `result` is the transport outcome.  Returns the
new state, the error Flush returns, and the batch handed to the
transport (`none` when the empty-queue fast path returns without any
network call). -/
def Batcher.Flush (cfg : Config) (s : BatcherState) (addedDuring : List Event) (result : SendResult) :
    BatcherState × Option FlushError × Option (List Event) :=
  if s.queue.isEmpty then (s, none, none)
  else
    let events := s.queue
    let mid : BatcherState := { s with queue := addedDuring }
    match result with
    | .ok resp =>
        let m := if cfg.MetricsEnabled then
            mid.metrics.RecordFlush resp.Successes.length resp.Errors.length
          else mid.metrics
        ({ mid with metrics := m }, none, some events)
    | .err e =>
        (Batcher.handleFlushError cfg mid events e, some e, some events)

/-- Add mirrors Batcher.Add: record the enqueue metric, reject with
QueueFullError when the queue is at capacity (recording the drop),
otherwise append and, when the FlushAt threshold is reached, flush
synchronously on the caller's path with the given transport outcome
(flush errors are absorbed).  In this sequential model no producer runs
during the auto-flush, so its `addedDuring` list is empty. -/
def Batcher.Add (cfg : Config) (s : BatcherState) (event : Event) (result : SendResult) :
    BatcherState × Option QueueFullError :=
  let m0 := if cfg.MetricsEnabled then s.metrics.RecordEnqueued 1 else s.metrics
  if s.queue.length ≥ cfg.MaxQueueSize then
    let m1 := if cfg.MetricsEnabled then m0.RecordDropped 1 else m0
    ({ s with metrics := m1 }, some { MaxSize := cfg.MaxQueueSize })
  else
    let s1 : BatcherState := { s with queue := s.queue ++ [event], metrics := m0 }
    if s1.queue.length ≥ cfg.FlushAt then
      ((Batcher.Flush cfg s1 [] result).1, none)
    else
      (s1, none)

/-- Batcher.Close mirrors the Go method: signal the background task to
stop, wait for it, then flush the remaining events. -/
def Batcher.Close (cfg : Config) (s : BatcherState) (result : SendResult) : BatcherState × Option FlushError :=
  let s1 : BatcherState := { s with done := true }
  let r := Batcher.Flush cfg s1 [] result
  (r.1, r.2.1)

/-- A sequence of Add calls, each with its own transport outcome for a
possible auto-flush. -/
def addSeq (cfg : Config) (s : BatcherState) (l : List (Event × SendResult)) : BatcherState :=
  l.foldl (fun st p => (Batcher.Add cfg st p.1 p.2).1) s

/-- ClientState mirrors the Client struct: configuration, the closed
flag, and the Batcher (present only when the SDK is enabled; the
Metrics the client owns live inside BatcherState here, since only the
Batcher mutates them). -/
structure ClientState where
  config : Config
  closed : Bool
  batcher : Option BatcherState
  deriving DecidableEq, Repr

/-- NewClient mirrors the Go constructor: validate the configuration,
then create and start a Batcher only when the SDK is enabled. -/
def NewClient (cfg : Config) : Except ConfigError ClientState :=
  match cfg.Validate with
  | some e => Except.error e
  | none =>
      Except.ok
        { config := cfg, closed := false,
          batcher := if cfg.Enabled then some (NewBatcher cfg) else none }

/-- EnqueueError: the errors Client.enqueue can surface — the
closed-client error or the Batcher's QueueFullError. -/
inductive EnqueueError where
  | closedClient
  | queueFull (maxSize : Nat)
  deriving DecidableEq, Repr

/-- Client.enqueue mirrors the Go method: fail when closed, silently
succeed when the SDK is disabled, otherwise delegate to Batcher.Add. -/
def Client.enqueue (c : ClientState) (event : Event) (result : SendResult) :
    ClientState × Option EnqueueError :=
  if c.closed then (c, some EnqueueError.closedClient)
  else if c.config.Enabled = false then (c, none)
  else
    match c.batcher with
    | none => (c, none)
    | some b =>
        let r := Batcher.Add c.config b event result
        ({ c with batcher := some r.1 }, r.2.map (fun q => EnqueueError.queueFull q.MaxSize))

/-- Client.Flush mirrors the Go method: a no-op unless the SDK is
enabled and the batcher exists. -/
def Client.Flush (c : ClientState) (addedDuring : List Event) (result : SendResult) :
    ClientState × Option FlushError :=
  if c.config.Enabled = false then (c, none)
  else
    match c.batcher with
    | none => (c, none)
    | some b =>
        let r := Batcher.Flush c.config b addedDuring result
        ({ c with batcher := some r.1 }, r.2.1)

/-- Client.Close mirrors the Go method: a second call returns nil at
once; the first call marks the client closed and, when a batcher
exists, runs Batcher.Close and returns its (final flush) error. -/
def Client.Close (c : ClientState) (result : SendResult) : ClientState × Option FlushError :=
  if c.closed then (c, none)
  else
    let c1 : ClientState := { c with closed := true }
    match c1.batcher with
    | some b =>
        let r := Batcher.Close c1.config b result
        ({ c1 with batcher := some r.1 }, r.2)
    | none => (c1, none)

/-- The Go truncation applied by RecordFailedEvent: keep only the last
1000 entries of the failed-events buffer. -/
def failedCap (l : List FailedEvent) : List FailedEvent :=
  if l.length > 1000 then l.drop (l.length - 1000) else l

/-! Concrete fixtures used by witnesses and counterexamples. -/

/-- A sample trace-create event. -/
def sampleEvent : Event :=
  { id := "e1", type := "trace-create", timestamp := 0, body := "" }

/-- A second sample event. -/
def sampleEvent2 : Event :=
  { id := "e2", type := "span-create", timestamp := 1, body := "" }

/-- A valid configuration with FlushAt 2, MaxQueueSize 2 and metrics
enabled. -/
def baseConfig : Config :=
  { PublicKey := "pk", SecretKey := "sk", BaseURL := "https://cloud.langfuse.com",
    FlushInterval := 1, FlushAt := 2, MaxQueueSize := 2, Timeout := 10,
    Enabled := true, Debug := false, MaxRetryAttempts := 5, RetryBaseDelay := 5,
    RetryMaxDelay := 30, MetricsEnabled := true }

/-- An all-success ingestion response for a two-event batch. -/
def okResp : IngestionResponse :=
  { Successes := [{ id := "e1", status := 200, message := "" },
                  { id := "e2", status := 200, message := "" }],
    Errors := [] }

/-- A successful transport outcome. -/
def okSend : SendResult := .ok okResp

/-- A retryable network failure. -/
def networkFailure : FlushError := .langfuse (NewNetworkError "connection refused")

/-- A non-retryable HTTP 400 failure. -/
def clientFailure : FlushError := .langfuse (NewHTTPError 400 "bad request")

/-- baseConfig shrunk to capacity 1 with a high flush threshold. -/
def fullConfig : Config := { baseConfig with MaxQueueSize := 1, FlushAt := 10 }

/-- A batcher holding one event. -/
def oneEventState : BatcherState :=
  { queue := [sampleEvent], done := false, metrics := Metrics.init }

/-- A batcher holding two events (at baseConfig capacity). -/
def twoEventState : BatcherState :=
  { queue := [sampleEvent, sampleEvent2], done := false, metrics := Metrics.init }

/-- A freshly constructed enabled client. -/
def sampleClient : ClientState :=
  { config := baseConfig, closed := false, batcher := some (NewBatcher baseConfig) }

/-- baseConfig with the SDK disabled. -/
def disabledConfig : Config := { baseConfig with Enabled := false }

/-- The client NewClient builds from disabledConfig. -/
def disabledClient : ClientState :=
  { config := disabledConfig, closed := false, batcher := none }

/-- baseConfig with different retry tuning, for the noninterference
witness. -/
def retryConfigB : Config :=
  { baseConfig with MaxRetryAttempts := 0, RetryBaseDelay := 99, RetryMaxDelay := 100 }

/-! Helper lemmas. -/

theorem failedCap_eq_drop (l : List FailedEvent) :
    failedCap l = l.drop (l.length - 1000) := by
  unfold failedCap
  split
  · rfl
  · have h : l.length - 1000 = 0 := by omega
    rw [h, List.drop_zero]

theorem failedCap_length (l : List FailedEvent) :
    (failedCap l).length = min l.length 1000 := by
  rw [failedCap_eq_drop, List.length_drop]
  omega

theorem failedCap_absorb (a t : List FailedEvent) :
    failedCap (failedCap a ++ t) = failedCap (a ++ t) := by
  rcases le_or_lt a.length 1000 with h | h
  · have hk : a.length - 1000 = 0 := by omega
    rw [failedCap_eq_drop a, hk, List.drop_zero]
  · rw [failedCap_eq_drop (failedCap a ++ t), failedCap_eq_drop (a ++ t), failedCap_eq_drop a]
    have h1 : (a.drop (a.length - 1000)).length = 1000 := by
      rw [List.length_drop]; omega
    have h2 : (a.drop (a.length - 1000) ++ t).length - 1000 = t.length := by
      rw [List.length_append, h1]; omega
    have h3 : (a ++ t).length - 1000 = (a.length - 1000) + t.length := by
      rw [List.length_append]; omega
    rw [h2, h3, ← List.drop_drop,
      List.drop_append_of_le_length (by omega : a.length - 1000 ≤ a.length)]

theorem RecordFailedEvent_eq_cap (m : Metrics) (e : Event) (err : FlushError) (a : Nat) :
    m.RecordFailedEvent e err a =
      { m with failedEvents :=
          failedCap (m.failedEvents ++ [{ event := e, error := err, attempt := a }]) } := by
  rfl

theorem foldl_RecordFailedEvent (err : FlushError) (events : List Event) (m : Metrics)
    (h : m.failedEvents.length ≤ 1000) :
    events.foldl (fun acc e => acc.RecordFailedEvent e err 0) m =
      { m with failedEvents :=
          failedCap (m.failedEvents ++
            events.map (fun e => { event := e, error := err, attempt := 0 })) } := by
  induction events generalizing m with
  | nil =>
      have hcap : failedCap m.failedEvents = m.failedEvents := by
        unfold failedCap
        rw [if_neg (by omega)]
      simp only [List.foldl_nil, List.map_nil, List.append_nil, hcap]
  | cons e es ih =>
      have hlen : (m.RecordFailedEvent e err 0).failedEvents.length ≤ 1000 := by
        rw [RecordFailedEvent_eq_cap]
        simp only [failedCap_length]
        omega
      rw [List.foldl_cons, ih _ hlen, RecordFailedEvent_eq_cap]
      simp only [List.map_cons]
      rw [failedCap_absorb, List.append_assoc]
      rfl

theorem Add_queue_length_le (cfg : Config) (s : BatcherState) (e : Event) (r : SendResult)
    (h : s.queue.length ≤ cfg.MaxQueueSize) :
    (Batcher.Add cfg s e r).1.queue.length ≤ cfg.MaxQueueSize := by
  unfold Batcher.Add
  by_cases hfull : s.queue.length ≥ cfg.MaxQueueSize
  · rw [if_pos hfull]
    exact h
  · rw [if_neg hfull]
    by_cases htrig : (s.queue ++ [e]).length ≥ cfg.FlushAt
    · rw [if_pos htrig]
      unfold Batcher.Flush
      rw [if_neg (by simp)]
      dsimp only
      cases r with
      | ok resp => simp
      | err fe =>
          dsimp only
          unfold Batcher.handleFlushError
          by_cases hr : fe.isRetryableLangfuse
          · rw [if_pos hr]
            simp only [List.append_nil, List.length_append, List.length_cons,
              List.length_nil]
            omega
          · rw [if_neg hr]
            simp
    · rw [if_neg htrig]
      simp only [List.length_append, List.length_cons, List.length_nil]
      omega

theorem addSeq_queue_length_le (cfg : Config) (l : List (Event × SendResult))
    (s : BatcherState) (h : s.queue.length ≤ cfg.MaxQueueSize) :
    (addSeq cfg s l).queue.length ≤ cfg.MaxQueueSize := by
  induction l generalizing s with
  | nil => exact h
  | cons p l ih =>
      unfold addSeq
      rw [List.foldl_cons]
      exact ih _ (Add_queue_length_le cfg s p.1 p.2 h)

/-! Claim theorems. -/

/-- C1: for every sequence of Add calls on a fresh batcher,
`len(queue) ≤ maxQueueSize` holds after the sequence, and an Add on a
queue already holding maxQueueSize events returns QueueFullError with
that size, stores nothing, and leaves the queue unchanged. -/
theorem add_respects_capacity (cfg : Config) (l : List (Event × SendResult))
    (s : BatcherState) (e : Event) (r : SendResult)
    (hfull : s.queue.length = cfg.MaxQueueSize) :
    (addSeq cfg (NewBatcher cfg) l).queue.length ≤ cfg.MaxQueueSize ∧
    (Batcher.Add cfg s e r).2 = some { MaxSize := cfg.MaxQueueSize } ∧
    (Batcher.Add cfg s e r).1.queue = s.queue := by
  refine ⟨addSeq_queue_length_le cfg l _ (by simp [NewBatcher]), ?_, ?_⟩
  · unfold Batcher.Add
    rw [if_pos (by omega)]
  · unfold Batcher.Add
    rw [if_pos (by omega)]

/-- C1 witness: at baseConfig (capacity 2), any Add on a two-event queue
is rejected and leaves the queue unchanged. -/
theorem add_respects_capacity_witness :
    (addSeq baseConfig (NewBatcher baseConfig) []).queue.length ≤ baseConfig.MaxQueueSize ∧
    (Batcher.Add baseConfig twoEventState sampleEvent okSend).2
      = some { MaxSize := baseConfig.MaxQueueSize } ∧
    (Batcher.Add baseConfig twoEventState sampleEvent okSend).1.queue
      = twoEventState.queue :=
  add_respects_capacity baseConfig [] twoEventState sampleEvent okSend (by decide)

/-- C2: a flush of a non-empty snapshot that fails with a retryable
classification leaves the queue holding exactly the snapshot, in its
original order, before any events added during the send, and (with
metrics enabled) increments retryCount by exactly one; the batch handed
to the transport was exactly the snapshot. -/
theorem flush_retryable_requeues (cfg : Config) (s : BatcherState)
    (addedDuring : List Event) (err : FlushError)
    (hne : s.queue ≠ []) (hr : err.isRetryableLangfuse = true)
    (hm : cfg.MetricsEnabled = true) :
    (Batcher.Flush cfg s addedDuring (SendResult.err err)).1.queue
      = s.queue ++ addedDuring ∧
    (Batcher.Flush cfg s addedDuring (SendResult.err err)).1.metrics.retryCount
      = s.metrics.retryCount + 1 ∧
    (Batcher.Flush cfg s addedDuring (SendResult.err err)).2.2 = some s.queue := by
  unfold Batcher.Flush
  rw [if_neg (by simpa [List.isEmpty_iff] using hne)]
  dsimp only
  unfold Batcher.handleFlushError
  rw [if_pos hr]
  simp [hm, Metrics.RecordRetry]

/-- C2 witness: flushing a one-event queue into a network failure while
an event arrives requeues the snapshot ahead of the arrival and bumps
retryCount from 0 to 1. -/
theorem flush_retryable_requeues_witness :
    (Batcher.Flush baseConfig oneEventState [sampleEvent2]
        (SendResult.err networkFailure)).1.queue
      = oneEventState.queue ++ [sampleEvent2] ∧
    (Batcher.Flush baseConfig oneEventState [sampleEvent2]
        (SendResult.err networkFailure)).1.metrics.retryCount
      = oneEventState.metrics.retryCount + 1 ∧
    (Batcher.Flush baseConfig oneEventState [sampleEvent2]
        (SendResult.err networkFailure)).2.2 = some oneEventState.queue :=
  flush_retryable_requeues baseConfig oneEventState [sampleEvent2] networkFailure
    (by decide) (by decide) (by decide)

/-- C3: a flush of a non-empty snapshot that fails with a non-retryable
classification does not requeue the snapshot (the queue keeps only the
events added during the send), records (with metrics enabled) each
snapshot event as a FailedEvent in the buffer — appended in order and
truncated to the most recent 1000 entries — so the buffer grows by the
snapshot size capped at capacity 1000. -/
theorem flush_nonretryable_drops (cfg : Config) (s : BatcherState)
    (addedDuring : List Event) (err : FlushError)
    (hne : s.queue ≠ []) (hr : err.isRetryableLangfuse = false)
    (hm : cfg.MetricsEnabled = true)
    (hcap : s.metrics.failedEvents.length ≤ 1000) :
    (Batcher.Flush cfg s addedDuring (SendResult.err err)).1.queue = addedDuring ∧
    (Batcher.Flush cfg s addedDuring (SendResult.err err)).1.metrics.failedEvents
      = failedCap (s.metrics.failedEvents ++
          s.queue.map (fun e => { event := e, error := err, attempt := 0 })) ∧
    (Batcher.Flush cfg s addedDuring (SendResult.err err)).1.metrics.failedEvents.length
      = min (s.metrics.failedEvents.length + s.queue.length) 1000 := by
  unfold Batcher.Flush
  rw [if_neg (by simpa [List.isEmpty_iff] using hne)]
  dsimp only
  unfold Batcher.handleFlushError
  rw [if_neg (by simp [hr])]
  refine ⟨rfl, ?_, ?_⟩
  · simp only [hm, if_pos]
    rw [foldl_RecordFailedEvent err s.queue s.metrics hcap]
  · simp only [hm, if_pos]
    rw [foldl_RecordFailedEvent err s.queue s.metrics hcap, failedCap_length,
      List.length_append, List.length_map]

/-- C3 witness: flushing a one-event queue into an HTTP 400 failure
leaves an empty queue and a single FailedEvent record. -/
theorem flush_nonretryable_drops_witness :
    (Batcher.Flush baseConfig oneEventState [] (SendResult.err clientFailure)).1.queue = [] ∧
    (Batcher.Flush baseConfig oneEventState [] (SendResult.err clientFailure)).1.metrics.failedEvents
      = failedCap (oneEventState.metrics.failedEvents ++
          oneEventState.queue.map (fun e => { event := e, error := clientFailure, attempt := 0 })) ∧
    (Batcher.Flush baseConfig oneEventState [] (SendResult.err clientFailure)).1.metrics.failedEvents.length
      = min (oneEventState.metrics.failedEvents.length + oneEventState.queue.length) 1000 :=
  flush_nonretryable_drops baseConfig oneEventState [] clientFailure
    (by decide) (by decide) (by decide) (by decide)

/-- Filling a batcher below both thresholds: a run of Add calls that
never reaches FlushAt nor capacity just appends the events and bumps
the enqueued counter. -/
theorem addSeq_below_flushAt (cfg : Config) (r : SendResult) (evs : List Event)
    (s : BatcherState)
    (hm : cfg.MetricsEnabled = true)
    (hlt : s.queue.length + evs.length < cfg.FlushAt)
    (hle : s.queue.length + evs.length ≤ cfg.MaxQueueSize) :
    addSeq cfg s (evs.map (fun e => (e, r))) =
      { queue := s.queue ++ evs, done := s.done,
        metrics := { s.metrics with
          eventsEnqueued := s.metrics.eventsEnqueued + evs.length } } := by
  induction evs generalizing s with
  | nil =>
      simp only [List.map_nil, List.length_nil, Nat.add_zero, List.append_nil]
      rfl
  | cons e es ih =>
      simp only [List.map_cons, List.length_cons] at hlt hle ⊢
      unfold addSeq
      rw [List.foldl_cons]
      have hstep : (Batcher.Add cfg s e r).1 =
          { queue := s.queue ++ [e], done := s.done,
            metrics := { s.metrics with
              eventsEnqueued := s.metrics.eventsEnqueued + 1 } } := by
        have hnotfull : ¬ (s.queue.length ≥ cfg.MaxQueueSize) := by omega
        have hnottrig : ¬ ((s.queue ++ [e]).length ≥ cfg.FlushAt) := by
          simp only [List.length_append, List.length_cons, List.length_nil]
          omega
        unfold Batcher.Add
        rw [if_neg hnotfull, if_neg hnottrig]
        simp [hm, Metrics.RecordEnqueued]
      rw [show (List.foldl (fun st p => (Batcher.Add cfg st p.1 p.2).1)
            (Batcher.Add cfg s e r).1 (es.map (fun e => (e, r))))
          = addSeq cfg (Batcher.Add cfg s e r).1 (es.map (fun e => (e, r))) from rfl]
      rw [hstep, ih]
      · simp only [List.append_assoc, List.singleton_append,
          BatcherState.mk.injEq, Metrics.mk.injEq, true_and, and_true]
        omega
      · simp only [List.length_append, List.length_cons, List.length_nil]
        omega
      · simp only [List.length_append, List.length_cons, List.length_nil]
        omega

/-- C4: with flushAt = k (k ≤ maxQueueSize), metrics enabled, a fresh
queue, and a transport that succeeds reporting every item of the batch
as a success, after the k-th Add returns the queue is empty (the
size-triggered flush ran synchronously) and eventsFlushed has grown by
exactly k. -/
theorem flushAt_triggers_synchronous_flush (cfg : Config) (m : Metrics)
    (evs : List Event) (e : Event) (resp : IngestionResponse)
    (hm : cfg.MetricsEnabled = true)
    (hlen : evs.length + 1 = cfg.FlushAt)
    (hmax : cfg.FlushAt ≤ cfg.MaxQueueSize)
    (hrs : resp.Successes.length = cfg.FlushAt)
    (hre : resp.Errors = []) :
    (addSeq cfg (BatcherState.mk [] false m)
        ((evs ++ [e]).map (fun x => (x, SendResult.ok resp)))).queue = [] ∧
    (addSeq cfg (BatcherState.mk [] false m)
        ((evs ++ [e]).map (fun x => (x, SendResult.ok resp)))).metrics.eventsFlushed
      = m.eventsFlushed + cfg.FlushAt := by
  rw [List.map_append]
  unfold addSeq
  rw [List.foldl_append]
  rw [show List.foldl (fun st p => (Batcher.Add cfg st p.1 p.2).1)
        (BatcherState.mk [] false m) (evs.map (fun x => (x, SendResult.ok resp)))
      = addSeq cfg (BatcherState.mk [] false m) (evs.map (fun x => (x, SendResult.ok resp)))
      from rfl]
  rw [addSeq_below_flushAt cfg (SendResult.ok resp) evs (BatcherState.mk [] false m) hm
      (by simp only [List.length_nil]; omega) (by simp only [List.length_nil]; omega)]
  simp only [List.map_cons, List.map_nil, List.foldl_cons, List.foldl_nil,
    List.nil_append]
  have hnotfull : ¬ ((List.length evs : Nat) ≥ cfg.MaxQueueSize) := by omega
  have htrig : ((evs ++ [e]).length ≥ cfg.FlushAt) := by
    simp only [List.length_append, List.length_cons, List.length_nil]
    omega
  unfold Batcher.Add
  dsimp only
  rw [if_neg hnotfull, if_pos htrig]
  unfold Batcher.Flush
  rw [if_neg (by simp)]
  dsimp only
  constructor
  · rfl
  · simp [hm, hrs, hre, Metrics.RecordFlush, Metrics.RecordEnqueued]

/-- C4 witness: baseConfig has flushAt 2; adding two events with an
all-success transport empties the queue and raises eventsFlushed by 2. -/
theorem flushAt_triggers_synchronous_flush_witness :
    (addSeq baseConfig (BatcherState.mk [] false Metrics.init)
        (([sampleEvent] ++ [sampleEvent2]).map (fun x => (x, SendResult.ok okResp)))).queue = [] ∧
    (addSeq baseConfig (BatcherState.mk [] false Metrics.init)
        (([sampleEvent] ++ [sampleEvent2]).map (fun x => (x, SendResult.ok okResp)))).metrics.eventsFlushed
      = Metrics.init.eventsFlushed + baseConfig.FlushAt :=
  flushAt_triggers_synchronous_flush baseConfig Metrics.init [sampleEvent] sampleEvent2 okResp
    (by decide) (by decide) (by decide) (by decide) (by decide)

/-- C6 counterexample: with metrics enabled, capacity 1 and one event
already queued, Add rejects the next event with QueueFullError — yet
eventsEnqueued still rises from 0 to 1, because Add records the enqueue
metric before the capacity check; the claim that a rejected Add leaves
the enqueued counter unchanged is false. -/
theorem add_reject_bumps_enqueued_counterexample :
    (Batcher.Add fullConfig oneEventState sampleEvent2 okSend).2
      = some { MaxSize := 1 } ∧
    (Batcher.Add fullConfig oneEventState sampleEvent2 okSend).1.metrics.eventsEnqueued
      = oneEventState.metrics.eventsEnqueued + 1 ∧
    (Batcher.Add fullConfig oneEventState sampleEvent2 okSend).1.metrics.eventsEnqueued
      ≠ oneEventState.metrics.eventsEnqueued := by
  decide

/-- C6 amended: Add records the enqueue metric unconditionally at entry,
so a rejected Add leaves the queue unchanged, returns QueueFullError,
increases eventsDropped by exactly 1 and also increases eventsEnqueued
by 1 (rather than leaving it unchanged), when metrics are enabled. -/
theorem add_reject_metrics (cfg : Config) (s : BatcherState) (e : Event) (r : SendResult)
    (hm : cfg.MetricsEnabled = true) (hfull : cfg.MaxQueueSize ≤ s.queue.length) :
    (Batcher.Add cfg s e r).2 = some { MaxSize := cfg.MaxQueueSize } ∧
    (Batcher.Add cfg s e r).1.queue = s.queue ∧
    (Batcher.Add cfg s e r).1.metrics.eventsDropped = s.metrics.eventsDropped + 1 ∧
    (Batcher.Add cfg s e r).1.metrics.eventsEnqueued = s.metrics.eventsEnqueued + 1 := by
  have hge : s.queue.length ≥ cfg.MaxQueueSize := hfull
  unfold Batcher.Add
  rw [if_pos hge]
  simp [hm, Metrics.RecordEnqueued, Metrics.RecordDropped]

/-- C6 amended witness: the capacity-1 rejection bumps both counters. -/
theorem add_reject_metrics_witness :
    (Batcher.Add fullConfig oneEventState sampleEvent okSend).2
      = some { MaxSize := fullConfig.MaxQueueSize } ∧
    (Batcher.Add fullConfig oneEventState sampleEvent okSend).1.queue
      = oneEventState.queue ∧
    (Batcher.Add fullConfig oneEventState sampleEvent okSend).1.metrics.eventsDropped
      = oneEventState.metrics.eventsDropped + 1 ∧
    (Batcher.Add fullConfig oneEventState sampleEvent okSend).1.metrics.eventsEnqueued
      = oneEventState.metrics.eventsEnqueued + 1 :=
  add_reject_metrics fullConfig oneEventState sampleEvent okSend (by decide) (by decide)

/-- Flush never changes the done flag. -/
theorem Flush_preserves_done (cfg : Config) (s : BatcherState)
    (addedDuring : List Event) (r : SendResult) :
    (Batcher.Flush cfg s addedDuring r).1.done = s.done := by
  unfold Batcher.Flush Batcher.handleFlushError
  by_cases h : s.queue.isEmpty
  · rw [if_pos h]
  · rw [if_neg h]
    cases r with
    | ok resp => rfl
    | err fe =>
        dsimp only
        by_cases hr : fe.isRetryableLangfuse
        · rw [if_pos hr]
        · rw [if_neg hr]

/-- C7: Close is idempotent.  On a running client holding a batcher, the
first Close marks the client closed, stops the background task (the
done flag of the resulting batcher is set) and returns the error of the
final flush; a second Close — whatever its transport outcome — returns
nil and changes nothing (so no further flush is attempted); and any
enqueue after Close fails with the closed-client error and leaves the
state untouched. -/
theorem close_idempotent (c : ClientState) (b : BatcherState) (r r' r'' : SendResult)
    (e : Event) (hnc : c.closed = false) (hb : c.batcher = some b) :
    (Client.Close c r).1.closed = true ∧
    (Client.Close c r).1.batcher = some (Batcher.Close c.config b r).1 ∧
    (Batcher.Close c.config b r).1.done = true ∧
    (Client.Close c r).2 = (Batcher.Flush c.config { b with done := true } [] r).2.1 ∧
    Client.Close (Client.Close c r).1 r' = ((Client.Close c r).1, none) ∧
    Client.enqueue (Client.Close c r).1 e r'' = ((Client.Close c r).1, some EnqueueError.closedClient) := by
  have hfirst : Client.Close c r =
      ({ config := c.config, closed := true,
         batcher := some (Batcher.Close c.config b r).1 },
        (Batcher.Close c.config b r).2) := by
    unfold Client.Close
    rw [if_neg (by simp [hnc])]
    dsimp only
    rw [hb]
  have hcc : ∀ (c' : ClientState) (x : SendResult), c'.closed = true →
      Client.Close c' x = (c', none) := by
    intro c' x hx
    unfold Client.Close
    rw [if_pos hx]
  have hen : ∀ (c' : ClientState) (x : SendResult) (ev : Event), c'.closed = true →
      Client.enqueue c' ev x = (c', some EnqueueError.closedClient) := by
    intro c' x ev hx
    unfold Client.enqueue
    rw [if_pos hx]
  refine ⟨?_, ?_, ?_, ?_, ?_, ?_⟩
  · rw [hfirst]
  · rw [hfirst]
  · unfold Batcher.Close
    dsimp only
    rw [Flush_preserves_done]
  · rw [hfirst]
    rfl
  · rw [hfirst]
    exact hcc _ r' rfl
  · rw [hfirst]
    exact hen _ r'' e rfl

/-- C7 witness: on the sample running client, the first Close closes and
stops, the second is a no-op returning nil, and enqueue afterwards fails
closed. -/
theorem close_idempotent_witness :
    (Client.Close sampleClient okSend).1.closed = true ∧
    (Client.Close sampleClient okSend).1.batcher
      = some (Batcher.Close sampleClient.config (NewBatcher baseConfig) okSend).1 ∧
    (Batcher.Close sampleClient.config (NewBatcher baseConfig) okSend).1.done = true ∧
    (Client.Close sampleClient okSend).2
      = (Batcher.Flush sampleClient.config { NewBatcher baseConfig with done := true } [] okSend).2.1 ∧
    Client.Close (Client.Close sampleClient okSend).1 okSend
      = ((Client.Close sampleClient okSend).1, none) ∧
    Client.enqueue (Client.Close sampleClient okSend).1 sampleEvent okSend
      = ((Client.Close sampleClient okSend).1, some EnqueueError.closedClient) :=
  close_idempotent sampleClient (NewBatcher baseConfig) okSend okSend okSend sampleEvent
    (by decide) (by decide)

/-- C8: Flush on an empty queue is a complete no-op: the transport is
never invoked (no batch is handed to it), no error is returned, and the
state — queue and every metrics counter — is unchanged. -/
theorem flush_empty_noop (cfg : Config) (s : BatcherState)
    (addedDuring : List Event) (r : SendResult) (h : s.queue = []) :
    Batcher.Flush cfg s addedDuring r = (s, none, none) := by
  unfold Batcher.Flush
  rw [if_pos (by simp [h])]

/-- C8 witness: a fresh batcher flushes to nothing. -/
theorem flush_empty_noop_witness :
    Batcher.Flush baseConfig (NewBatcher baseConfig) [sampleEvent] okSend
      = (NewBatcher baseConfig, none, none) :=
  flush_empty_noop baseConfig (NewBatcher baseConfig) [sampleEvent] okSend (by decide)

/-- C9: Add, Flush and flush-error handling read none of
MaxRetryAttempts, RetryBaseDelay and RetryMaxDelay: two configurations
agreeing on FlushAt, MaxQueueSize and MetricsEnabled (in particular,
two configurations differing only in the three retry fields) produce
identical results, queue states and metrics; and a retryable failure
always requeues the whole snapshot, with no attempt bound and no
backoff state consulted. -/
theorem retry_config_no_influence (cfg1 cfg2 : Config) (s : BatcherState)
    (e : Event) (r : SendResult) (addedDuring events : List Event) (ferr : FlushError)
    (h1 : cfg1.FlushAt = cfg2.FlushAt)
    (h2 : cfg1.MaxQueueSize = cfg2.MaxQueueSize)
    (h3 : cfg1.MetricsEnabled = cfg2.MetricsEnabled) :
    Batcher.Add cfg1 s e r = Batcher.Add cfg2 s e r ∧
    Batcher.Flush cfg1 s addedDuring r = Batcher.Flush cfg2 s addedDuring r ∧
    Batcher.handleFlushError cfg1 s events ferr = Batcher.handleFlushError cfg2 s events ferr ∧
    (ferr.isRetryableLangfuse = true →
      (Batcher.handleFlushError cfg1 s events ferr).queue = events ++ s.queue) := by
  refine ⟨?_, ?_, ?_, ?_⟩
  · unfold Batcher.Add Batcher.Flush Batcher.handleFlushError
    rw [h1, h2, h3]
  · unfold Batcher.Flush Batcher.handleFlushError
    rw [h3]
  · unfold Batcher.handleFlushError
    rw [h3]
  · intro hr
    unfold Batcher.handleFlushError
    rw [if_pos hr]

/-- C9 witness: baseConfig and retryConfigB differ only in the retry
fields and behave identically. -/
theorem retry_config_no_influence_witness :
    Batcher.Add baseConfig oneEventState sampleEvent2 okSend
      = Batcher.Add retryConfigB oneEventState sampleEvent2 okSend ∧
    Batcher.Flush baseConfig oneEventState [] okSend
      = Batcher.Flush retryConfigB oneEventState [] okSend ∧
    Batcher.handleFlushError baseConfig oneEventState [sampleEvent] networkFailure
      = Batcher.handleFlushError retryConfigB oneEventState [sampleEvent] networkFailure ∧
    (networkFailure.isRetryableLangfuse = true →
      (Batcher.handleFlushError baseConfig oneEventState [sampleEvent] networkFailure).queue
        = [sampleEvent] ++ oneEventState.queue) :=
  retry_config_no_influence baseConfig retryConfigB oneEventState sampleEvent2 okSend
    [] [sampleEvent] networkFailure (by decide) (by decide) (by decide)

/-- C10: with Enabled = false, NewClient constructs no batcher; on any
non-closed client whose configuration is disabled, enqueue returns nil
and silently discards the event (the whole client state is unchanged),
and Client.Flush returns nil with no effect. -/
theorem disabled_client_discards (cfg : Config) (c : ClientState) (e : Event)
    (r r2 : SendResult) (addedDuring : List Event)
    (hv : cfg.Validate = none) (hd : cfg.Enabled = false)
    (hc : c.closed = false) (hce : c.config.Enabled = false) :
    NewClient cfg = Except.ok (ClientState.mk cfg false none) ∧
    Client.enqueue c e r = (c, none) ∧
    Client.Flush c addedDuring r2 = (c, none) := by
  refine ⟨?_, ?_, ?_⟩
  · unfold NewClient
    rw [hv]
    simp [hd]
  · unfold Client.enqueue
    rw [if_neg (by simp [hc]), if_pos hce]
  · unfold Client.Flush
    rw [if_pos hce]

/-- C10 witness: the disabled sample client swallows an event and a
flush without any state change. -/
theorem disabled_client_discards_witness :
    NewClient disabledConfig = Except.ok (ClientState.mk disabledConfig false none) ∧
    Client.enqueue disabledClient sampleEvent okSend = (disabledClient, none) ∧
    Client.Flush disabledClient [sampleEvent2] okSend = (disabledClient, none) :=
  disabled_client_discards disabledConfig disabledClient sampleEvent okSend okSend
    [sampleEvent2] (by decide) (by decide) (by decide) (by decide)

end Langfuse
